import Mathlib

/-!
Shallow embedding of the chest-pain triage simulation
(repository: Chestpain28012026; files src/Deploy/main.py, src/Deploy/simulation.py,
src/chest_pain_sim.py).

Python integers are modelled as Int, Python floats used for money/probability as
exact rationals, and the one place where binary64 rounding is observable
(the daily patient-count computation) is modelled with an exact round-to-nearest,
ties-to-even binary64 model over the rationals.  Randomness is modelled by
passing the drawn values explicitly: a call random.randint(lo, hi) becomes
randint lo hi s for an arbitrary seed s (its image is exactly [lo, hi]), the
uniform draws random.random()*100 and the boolean coin flips become explicit
rational / boolean parameters.
-/

/-- Model of random.randint(lo, hi): for hi >= lo the value lo + s % (hi+1-lo)
ranges over exactly the integers of [lo, hi] as the seed s ranges over Nat. -/
def randint (lo hi : ℤ) (s : ℕ) : ℤ :=
  lo + (s : ℤ) % (hi + 1 - lo)

/-- Model of random.choices([0,1,2,3,4,5], weights=[30,30,20,10,5,5]) used for the
Non-Cardiac HEART score (main.py line 116, simulation.py line 40): the seed is
reduced mod 100 and mapped through the cumulative weights 30,60,80,90,95,100. -/
def weightedHeart (s : ℕ) : ℤ :=
  let w := s % 100
  if w < 30 then 0
  else if w < 60 then 1
  else if w < 80 then 2
  else if w < 90 then 3
  else if w < 95 then 4
  else 5

/-- The random draws consumed for one simulated patient, in the order the source
draws them: the condition draw r = random.random()*100, the three randint seeds,
the doctor-availability / result-availability coin and the safety-net coin. -/
structure PDraws where
  r : ℚ
  hs : ℕ
  ts : ℕ
  ds : ℕ
  doc : Bool
  rescue : Bool

/-- One generated patient record (simulation.py lines 44-51; the main.py variant
at lines 120-123 is identical except that it does not store T3). -/
structure Patient where
  pid : ℕ
  condition : String
  heart : ℤ
  t0 : ℤ
  t1 : ℤ
  t3 : ℤ

/-- generate_patient_profile (main.py lines 97-123, simulation.py lines 5-51):
band the draw r against acs_prevalence, then draw condition-specific
HEART score, base troponin and delta; T1 = T0 + delta, T3 = T0 + 2*delta. -/
def generate_patient_profile (i : ℕ) (acs : ℚ) (d : PDraws) : Patient :=
  if d.r < acs then
    let b := randint 20 800 d.ts
    let dl := randint 10 100 d.ds
    ⟨i, "NSTEMI", randint 5 10 d.hs, b, b + dl, b + dl * 2⟩
  else if d.r < acs + 5 then
    let b := randint 0 10 d.ts
    let dl := randint 0 2 d.ds
    ⟨i, "Unstable Angina", randint 4 9 d.hs, b, b + dl, b + dl * 2⟩
  else if d.r < acs + 15 then
    let b := randint 20 60 d.ts
    let dl := randint 0 3 d.ds
    ⟨i, "Chronic Injury", randint 3 8 d.hs, b, b + dl, b + dl * 2⟩
  else
    let b := randint 0 6 d.ts
    let dl := randint 0 1 d.ds
    ⟨i, "Non-Cardiac", weightedHeart d.hs, b, b + dl, b + dl * 2⟩

/-- The condition band of the draw r, standing alone (same branch structure as
generate_patient_profile). -/
def conditionOf (r acs : ℚ) : String :=
  if r < acs then "NSTEMI"
  else if r < acs + 5 then "Unstable Angina"
  else if r < acs + 15 then "Chronic Injury"
  else "Non-Cardiac"

/-- Index of the condition band selected by the draw r, in source order
(NSTEMI = 0, Unstable Angina = 1, Chronic Injury = 2, Non-Cardiac = 3). -/
def bandIdx (r acs : ℚ) : ℕ :=
  if r < acs then 0
  else if r < acs + 5 then 1
  else if r < acs + 15 then 2
  else 3

/-- Rule-out and rule-in troponin thresholds from the sidebar sliders. -/
structure Limits where
  rule_out : ℤ
  rule_in : ℤ

/-- A testing platform: unit cost (pounds), turnaround time (minutes) and
result/doctor availability probability. -/
structure Platform where
  cost : ℚ
  turnaround : ℕ
  availability : ℚ

/-- Point of Care platform of main.py lines 138-141. -/
def pocPlatform : Platform := ⟨30, 20, 9 / 10⟩

/-- Central Lab platform of main.py lines 143-145. -/
def centralPlatform : Platform := ⟨5, 90, 2 / 5⟩

/-- Point of Care platform of chest_pain_sim.py line 156. -/
def cpsPocPlatform : Platform := ⟨30, 20, 85 / 100⟩

/-- Central Lab platform of chest_pain_sim.py line 158. -/
def cpsCentralPlatform : Platform := ⟨5, 90, 35 / 100⟩

/-- apply_esc_guidelines (simulation.py lines 53-71): returns the
(outcome, action, wait) triple.  The not-ready branch returns the constant
wait 90 + 60; no platform data reaches this function. -/
def apply_esc_guidelines (p : Patient) (limits : Limits) (result_ready : Bool) :
    String × String × ℕ :=
  if result_ready = false then
    ("Pending", "Bed Blocked (Wait)", 90 + 60)
  else if p.t0 < limits.rule_out ∨ (p.t0 < 12 ∧ p.t1 - p.t0 < 3) then
    ("Rule Out", "Discharge", 20)
  else if limits.rule_in < p.t0 ∨ 5 < p.t1 - p.t0 then
    ("Rule In", "Cath Lab/Cardiology", 60)
  else
    ("Observe", "Admit AMU (Serial Trop)", 180)

/-- Per-patient pipeline of simulation.py run_shift (lines 107-131): apply the
ESC guidelines, then the Unstable-Angina safety net.  rescue is the pre-drawn
value of random.random() < 0.5 (only consulted when the HEART score is >= 4,
matching the short-circuit in the source). -/
def escStep (p : Patient) (limits : Limits) (dest : String)
    (result_ready rescue : Bool) : String × String × ℕ :=
  let res := apply_esc_guidelines p limits result_ready
  if p.condition = "Unstable Angina" ∧ res.1 = "Rule Out" then
    if 4 ≤ p.heart ∧ rescue = true then
      ("Clinical Rescue", "Admit (High Risk Story)", 120)
    else
      ("Missed UA", "Discharge (" ++ dest ++ ")", res.2.2)
  else
    res

/-- Does the first string start with the second (model of str.startswith)? -/
def strStarts (s pre : String) : Bool :=
  pre.data.isPrefixOf s.data

/-- Does the first string contain the second as a substring (model of the
Python test pat in s)? -/
def strHas (s pat : String) : Bool :=
  s.data.tails.any (fun t => pat.data.isPrefixOf t)

/-- Bed-block contribution of one action string in simulation.py run_shift
(lines 133-134): 1 when the action starts with Bed or Admit. -/
def escBeds (action : String) : ℕ :=
  if strStarts action "Bed" || strStarts action "Admit" then 1 else 0

/-- Bed/admission test of main.py run_shift line 202: substring containment of
Admit or Block in the action string. -/
def admitOrBlock (action : String) : Bool :=
  strHas action "Admit" || strHas action "Block"

/-- Per-patient decision of the chest_pain_sim.py run loop (lines 202-223):
returns (outcome, action, wait, beds); the not-ready branch waits
turnaround_time + 60 and blocks one bed. -/
def cps_decision (trop ruleOutL ruleInL : ℤ) (turnaround : ℕ) (dest : String)
    (result_ready : Bool) : String × String × ℕ × ℕ :=
  if result_ready = true then
    if trop < ruleOutL then ("Rule Out", "Discharge (" ++ dest ++ ")", 20, 0)
    else if ruleInL < trop then ("Rule In", "Cath Lab", 20, 0)
    else ("Grey Zone", "Admit AMU", 20, 1)
  else
    ("Pending", "Bed Blocked (Wait)", turnaround + 60, 1)

/-- One row of the waterfall result table (main.py run_shift), with the per-row
bed count and the number of test kits the patient consumed. -/
structure Row where
  pid : ℕ
  condition : String
  heart : ℤ
  t0 : ℤ
  t1 : ℤ
  outcome : String
  action : String
  wait : ℕ
  beds : ℕ
  kits : ℕ

/-- Builds a row and applies the final bed fix-up of main.py lines 202-203:
if the action mentions Admit or Block the bed count is forced to 1. -/
def mkRow (p : Patient) (outcome action : String) (wait beds kits : ℕ) : Row :=
  { pid := p.pid, condition := p.condition, heart := p.heart, t0 := p.t0,
    t1 := p.t1, outcome := outcome, action := action, wait := wait,
    beds := if admitOrBlock action then 1 else beds, kits := kits }

/-- One iteration of the main.py run_shift waterfall loop (lines 149-209):
T0 test with optional doctor-availability penalty, single-sample exit check,
else serial 0h/1h testing with the Unstable-Angina safety net, Rule In and
Grey Zone branches. -/
def waterfallStep (platform : Platform) (useSingle : Bool) (limits : Limits)
    (dest : String) (acs : ℚ) (i : ℕ) (d : PDraws) : Row :=
  let p := generate_patient_profile i acs d
  let wait := platform.turnaround + (if d.doc then 60 else 0)
  if useSingle = true ∧ p.t0 < limits.rule_out ∧ p.heart ≤ 3 then
    mkRow p "Rule Out (Single Sample)" ("Rapid Discharge (" ++ dest ++ ")") wait 0 1
  else
    let wait2 := wait + 60 + platform.turnaround
    if p.t0 < limits.rule_out ∨ (p.t0 < 12 ∧ p.t1 - p.t0 < 3) then
      if p.condition = "Unstable Angina" ∧ 4 ≤ p.heart ∧ d.rescue = true then
        mkRow p "Clinical Rescue" "Admit (High Risk)" wait2 1 2
      else
        mkRow p "Rule Out (Serial)" ("Discharge (" ++ dest ++ ")") wait2 0 2
    else if limits.rule_in < p.t0 ∨ 5 < p.t1 - p.t0 then
      mkRow p "Rule In" "Cath Lab" wait2 0 2
    else
      mkRow p "Grey Zone" "Admit AMU (Observe)" wait2 1 2

/-- Floor of the base-2 logarithm of a natural number, by fuelled halving; the
fuel only needs to dominate the recursion depth, so log2f n n is exact for
every n >= 1. -/
def log2f : ℕ → ℕ → ℕ
  | 0, _ => 0
  | fuel + 1, n => if n ≤ 1 then 0 else log2f fuel (n / 2) + 1

/-- Round the positive rational a / b (a, b >= 1) to the nearest IEEE binary64
value, 53 significant bits with ties to even, returned as a dyadic pair
(mantissa, exponent) whose value is mantissa * 2 ^ exponent.  This is the
correctly rounded result an IEEE division (or, with b = 1, an int-to-double
conversion or a multiplication of two doubles) produces.  Normal range only:
no overflow or subnormal handling is needed for the simulation's inputs. -/
def roundDiv53 (a b : ℕ) : ℕ × ℤ :=
  let c : ℤ := (log2f a a : ℤ) - (log2f b b : ℤ)
  let fl : ℤ :=
    if (if 0 ≤ c then b * 2 ^ c.toNat ≤ a else b ≤ a * 2 ^ (-c).toNat)
    then c else c - 1
  let e : ℤ := fl - 52
  let x : ℕ := if 0 ≤ e then a else a * 2 ^ (-e).toNat
  let y : ℕ := if 0 ≤ e then b * 2 ^ e.toNat else b
  let m := x / y
  let r := x % y
  let m2 :=
    if 2 * r < y then m
    else if y < 2 * r then m + 1
    else if m % 2 = 0 then m else m + 1
  (m2, e)

/-- daily_cp_volume = int(volume * (chest_pain_pct / 100)) (main.py line 135,
simulation.py line 100, chest_pain_sim.py line 149), in binary64 arithmetic:
pct/100 is a correctly rounded division of two exactly representable doubles,
the int factor is converted to double, their product is correctly rounded
(rounding the exact mantissa product m1 * m2 back to 53 bits), and int()
truncates, which on these non-negative values is the floor. -/
def daily_cp_volume (volume pct : ℕ) : ℕ :=
  if volume = 0 ∨ pct = 0 then 0
  else
    let f1 := roundDiv53 volume 1
    let f2 := roundDiv53 pct 100
    let f3 := roundDiv53 (f1.1 * f2.1) 1
    let e : ℤ := f1.2 + f2.2 + f3.2
    if 0 ≤ e then f3.1 * 2 ^ e.toNat else f3.1 / 2 ^ (-e).toNat

/-- The aggregate dictionary built by main.py run_shift lines 212-218 and
finalized by the RUN SIMULATION handler lines 404-406. -/
structure Financials where
  waiting_minutes : ℕ
  test_count : ℕ
  test_kit_cost : ℚ
  beds_blocked : ℕ
  total_cost : ℚ
  waiting_cost : ℚ := 0

/-- One accumulation step of the run_shift loop: append the row and add its
wait minutes, bed count and kit count to the running totals, exactly as
main.py lines 205-209 update the loop variables. -/
def foldStep (f : ℕ → Row) (a : List Row × ℕ × ℕ × ℕ) (k : ℕ) :
    List Row × ℕ × ℕ × ℕ :=
  (a.1 ++ [f k], a.2.1 + (f k).wait, a.2.2.1 + (f k).beds, a.2.2.2 + (f k).kits)

/-- run_shift (main.py lines 125-219): loop over the computed daily volume,
accumulating rows, wait minutes, bed blocks and test-kit units exactly as the
source accumulates its loop variables; kit cost is the accumulated kit count
times the platform unit cost. -/
def run_shift (volume pct : ℕ) (acs : ℚ) (platform : Platform)
    (useSingle : Bool) (limits : Limits) (dest : String)
    (draws : ℕ → PDraws) : List Row × Financials × ℕ :=
  let n := daily_cp_volume volume pct
  let acc := (List.range n).foldl
    (foldStep (fun k => waterfallStep platform useSingle limits dest acs (k + 1) (draws k)))
    ([], 0, 0, 0)
  (acc.1,
   { waiting_minutes := acc.2.1, test_count := n,
     test_kit_cost := (acc.2.2.2 : ℚ) * platform.cost,
     beds_blocked := acc.2.2.1, total_cost := 0 },
   n)

/-- Cost finalisation of the RUN SIMULATION handler (main.py lines 404-406):
staff cost per minute times accumulated waiting minutes, plus the kit spend. -/
def finalize (fin : Financials) (consultant nurse : ℚ) : Financials :=
  let spm := (consultant + nurse) / 60
  let wc := (fin.waiting_minutes : ℚ) * spm
  { fin with waiting_cost := wc, total_cost := wc + fin.test_kit_cost }

/-- Guarded early-discharge percentage of main.py line 423: defined as 0 when
the patient count is zero. -/
def pct_early (early total : ℕ) : ℚ :=
  if 0 < total then ((early : ℚ) / (total : ℚ)) * 100 else 0

/-- Bed-block rate check of chest_pain_sim.py line 331: the source divides
beds_blocked by daily_cp_volume with no guard, so a zero patient count is a
ZeroDivisionError; the comparison itself is against 0.2. -/
def bed_block_check (beds vol : ℕ) : Except String Bool :=
  if vol = 0 then Except.error "ZeroDivisionError"
  else Except.ok (decide ((beds : ℚ) / (vol : ℚ) > 1 / 5))

set_option maxRecDepth 10000

theorem randint_lower (lo hi : ℤ) (s : ℕ) (h : lo ≤ hi) : lo ≤ randint lo hi s := by
  have hpos : 0 < hi + 1 - lo := by omega
  have := Int.emod_nonneg (s : ℤ) (by omega : hi + 1 - lo ≠ 0)
  unfold randint
  omega

theorem randint_upper (lo hi : ℤ) (s : ℕ) (h : lo ≤ hi) : randint lo hi s ≤ hi := by
  have hpos : 0 < hi + 1 - lo := by omega
  have := Int.emod_lt_of_pos (s : ℤ) hpos
  unfold randint
  omega

theorem foldStep_spec (f : ℕ → Row) (l : List ℕ) :
    ∀ rows w b k, l.foldl (foldStep f) (rows, w, b, k)
      = (rows ++ l.map f,
         w + (l.map (fun x => (f x).wait)).sum,
         b + (l.map (fun x => (f x).beds)).sum,
         k + (l.map (fun x => (f x).kits)).sum) := by
  induction l with
  | nil => intro rows w b k; simp
  | cons x xs ih =>
      intro rows w b k
      simp only [List.foldl_cons, List.map_cons, List.sum_cons, foldStep, ih]
      simp [List.append_assoc, Nat.add_assoc]

theorem mkRow_beds_zero (p : Patient) (o a : String) (w k : ℕ) :
    (mkRow p o a w 0 k).beds = if admitOrBlock a then 1 else 0 := rfl

theorem mkRow_beds_admit (p : Patient) (o a : String) (w k : ℕ)
    (h : admitOrBlock a = true) :
    (mkRow p o a w 1 k).beds = if admitOrBlock a then 1 else 0 := by
  simp [mkRow, h]

theorem waterfallStep_beds_eq (platform : Platform) (useSingle : Bool)
    (limits : Limits) (dest : String) (acs : ℚ) (i : ℕ) (d : PDraws) :
    (waterfallStep platform useSingle limits dest acs i d).beds
      = if admitOrBlock (waterfallStep platform useSingle limits dest acs i d).action
        then 1 else 0 := by
  simp only [waterfallStep]
  by_cases c1 : useSingle = true ∧ (generate_patient_profile i acs d).t0 < limits.rule_out
      ∧ (generate_patient_profile i acs d).heart ≤ 3
  · rw [if_pos c1]; exact mkRow_beds_zero _ _ _ _ _
  · rw [if_neg c1]
    by_cases c2 : (generate_patient_profile i acs d).t0 < limits.rule_out
        ∨ ((generate_patient_profile i acs d).t0 < 12
          ∧ (generate_patient_profile i acs d).t1 - (generate_patient_profile i acs d).t0 < 3)
    · rw [if_pos c2]
      by_cases c3 : (generate_patient_profile i acs d).condition = "Unstable Angina"
          ∧ 4 ≤ (generate_patient_profile i acs d).heart ∧ d.rescue = true
      · rw [if_pos c3]; exact mkRow_beds_admit _ _ _ _ _ (by decide)
      · rw [if_neg c3]; exact mkRow_beds_zero _ _ _ _ _
    · rw [if_neg c2]
      by_cases c4 : limits.rule_in < (generate_patient_profile i acs d).t0
          ∨ 5 < (generate_patient_profile i acs d).t1 - (generate_patient_profile i acs d).t0
      · rw [if_pos c4]; exact mkRow_beds_zero _ _ _ _ _
      · rw [if_neg c4]; exact mkRow_beds_admit _ _ _ _ _ (by decide)

theorem sum_beds_eq_filter_length (f : ℕ → Row)
    (hf : ∀ k, (f k).beds = if admitOrBlock (f k).action then 1 else 0)
    (l : List ℕ) :
    (l.map (fun x => (f x).beds)).sum
      = ((l.map f).filter (fun row => admitOrBlock row.action)).length := by
  induction l with
  | nil => simp
  | cons x xs ih =>
      simp only [List.map_cons, List.sum_cons, List.filter_cons, hf x]
      by_cases hx : admitOrBlock (f x).action = true
      · simp only [hx, if_true, List.length_cons, ih]
        omega
      · simp only [Bool.not_eq_true] at hx
        simp [hx, ih]

/-- C1 (counterexample): with result_ready = false the ESC evaluator
apply_esc_guidelines returns the fixed wait 150 minutes, which is not the
Point of Care platform's turnaround_time + 60 = 80, so the claimed wait of
turnaround_time + 60 for every protocol configuration is false. -/
theorem apply_esc_pending_wait_ignores_platform :
    (apply_esc_guidelines ⟨1, "NSTEMI", 7, 500, 600, 700⟩ ⟨5, 52⟩ false).2.2 = 150
    ∧ cpsPocPlatform.turnaround + 60 = 80
    ∧ pocPlatform.turnaround + 60 = 80
    ∧ (150 : ℕ) ≠ 80 := by
  refine ⟨rfl, rfl, rfl, by decide⟩

/-- C1 (amended): with result_ready = false, apply_esc_guidelines returns
outcome Pending, action Bed Blocked (Wait) and the fixed wait 90 + 60 = 150
(the Central Lab turnaround plus 60) for every patient and threshold
configuration, and its caller counts the patient as one blocked bed; the
chest_pain_sim.py run loop returns Pending, Bed Blocked (Wait),
wait = turnaround_time + 60 and beds = 1 for every troponin value and
configured platform. -/
theorem pending_branch_spec :
    (∀ (p : Patient) (limits : Limits),
      apply_esc_guidelines p limits false = ("Pending", "Bed Blocked (Wait)", 150)
      ∧ escBeds (apply_esc_guidelines p limits false).2.1 = 1)
    ∧ (∀ (trop ruleOutL ruleInL : ℤ) (turnaround : ℕ) (dest : String),
      cps_decision trop ruleOutL ruleInL turnaround dest false
        = ("Pending", "Bed Blocked (Wait)", turnaround + 60, 1)) := by
  constructor
  · intro p limits
    constructor
    · rfl
    · rfl
  · intro trop ruleOutL ruleInL turnaround dest
    rfl

/-- C5 (counterexample): at census = 100 and chest_pain_pct = 29 the binary64
computation int(100 * (29/100)) evaluates to 28, while the exact rational
floor of 100 * 29 / 100 is 29, so the patient count is not always the exact
integer floor of the rational product. -/
theorem daily_volume_float_floor_counterexample :
    daily_cp_volume 100 29 = 28 ∧ 100 * 29 / 100 = 29 ∧ (28 : ℕ) ≠ 29 := by
  refine ⟨by decide, by decide, by decide⟩

/-- C5 (amended): the patient count is int(census * (chest_pain_pct/100)) in
binary64 floating point, which can fall below the exact rational floor; for
the concrete configuration census = 250, chest_pain_pct = 10 it does equal the
exact floor, 25. -/
theorem daily_volume_concrete_spec :
    daily_cp_volume 250 10 = 25 ∧ 250 * 10 / 100 = 25 := by
  refine ⟨by decide, by decide⟩

/-- C7: the early-discharge percentage of main.py is guarded (0 when the
patient count is 0), but the bed-block rate check of chest_pain_sim.py
divides by the patient count with no guard and is a ZeroDivisionError when
the count is 0. -/
theorem division_guard_bug :
    pct_early 0 0 = 0
    ∧ pct_early 5 0 = 0
    ∧ bed_block_check 0 0 = Except.error "ZeroDivisionError"
    ∧ bed_block_check 3 0 = Except.error "ZeroDivisionError" := by
  refine ⟨rfl, rfl, rfl, rfl⟩

/-- C8: every generated patient, in every condition branch and for every
acs_prevalence and draw, satisfies t0 <= t1 and both troponin values are
non-negative integers. -/
theorem troponin_monotone_spec (i : ℕ) (acs : ℚ) (d : PDraws) :
    (generate_patient_profile i acs d).t0 ≤ (generate_patient_profile i acs d).t1
    ∧ 0 ≤ (generate_patient_profile i acs d).t0
    ∧ 0 ≤ (generate_patient_profile i acs d).t1 := by
  have h1 := randint_lower 20 800 d.ts (by norm_num)
  have h2 := randint_lower 10 100 d.ds (by norm_num)
  have h3 := randint_lower 0 10 d.ts (by norm_num)
  have h4 := randint_lower 0 2 d.ds (by norm_num)
  have h5 := randint_lower 20 60 d.ts (by norm_num)
  have h6 := randint_lower 0 3 d.ds (by norm_num)
  have h7 := randint_lower 0 6 d.ts (by norm_num)
  have h8 := randint_lower 0 1 d.ds (by norm_num)
  unfold generate_patient_profile
  split_ifs <;> dsimp only <;> refine ⟨?_, ?_, ?_⟩ <;> omega

/-- C4: the generated condition is exactly the contiguous banding of the draw
in source order (NSTEMI, then a width-5 Unstable Angina band, then a width-10
Chronic Injury band, then Non-Cardiac), and the band index is monotone in the
draw value. -/
theorem condition_band_spec (i : ℕ) (acs : ℚ) (d : PDraws) (r r2 : ℚ)
    (hr0 : 0 ≤ r) (hr1 : r < 100) (ha0 : 0 ≤ acs) (ha1 : acs ≤ 100)
    (hmono : r ≤ r2) :
    (generate_patient_profile i acs d).condition = conditionOf d.r acs
    ∧ (conditionOf r acs = "NSTEMI" ↔ r < acs)
    ∧ (conditionOf r acs = "Unstable Angina" ↔ acs ≤ r ∧ r < acs + 5)
    ∧ (conditionOf r acs = "Chronic Injury" ↔ acs + 5 ≤ r ∧ r < acs + 15)
    ∧ (conditionOf r acs = "Non-Cardiac" ↔ acs + 15 ≤ r)
    ∧ bandIdx r acs ≤ bandIdx r2 acs
    ∧ acs + 5 - acs = 5
    ∧ acs + 15 - (acs + 5) = 10 := by
  refine ⟨?_, ?_, ?_, ?_, ?_, ?_, by ring, by ring⟩
  · unfold generate_patient_profile conditionOf
    split_ifs <;> rfl
  · unfold conditionOf
    split_ifs with ha hb hc
    · exact iff_of_true rfl ha
    · exact iff_of_false (by decide) ha
    · exact iff_of_false (by decide) ha
    · exact iff_of_false (by decide) ha
  · unfold conditionOf
    split_ifs with ha hb hc
    · exact iff_of_false (by decide) (fun hx => absurd hx.1 (not_le.mpr ha))
    · exact iff_of_true rfl ⟨not_lt.mp ha, hb⟩
    · exact iff_of_false (by decide) (fun hx => hb hx.2)
    · exact iff_of_false (by decide) (fun hx => hb hx.2)
  · unfold conditionOf
    split_ifs with ha hb hc
    · exact iff_of_false (by decide) (fun hx => by linarith [hx.1])
    · exact iff_of_false (by decide) (fun hx => by linarith [hx.1])
    · exact iff_of_true rfl ⟨not_lt.mp hb, hc⟩
    · exact iff_of_false (by decide) (fun hx => hc hx.2)
  · unfold conditionOf
    split_ifs with ha hb hc
    · exact iff_of_false (by decide) (fun hx => by linarith)
    · exact iff_of_false (by decide) (fun hx => by linarith)
    · exact iff_of_false (by decide) (fun hx => by linarith)
    · exact iff_of_true rfl (not_lt.mp hc)
  · unfold bandIdx
    split_ifs <;> first | (exfalso; linarith) | norm_num

/-- C2: with single-sample enabled, a generated patient with t0 below the
rule-out threshold and HEART score at most 3 exits the waterfall after the
first test cycle as Rule Out (Single Sample) with no bed blocked, exactly one
test kit consumed, and only the first-cycle wait (so the second test cycle is
never reached). -/
theorem single_sample_exit_spec (platform : Platform) (limits : Limits)
    (dest : String) (acs : ℚ) (i : ℕ) (d : PDraws)
    (hdest : dest = "GP Surgery" ∨ dest = "Virtual Ward" ∨ dest = "RACPC Clinic")
    (ht0 : (generate_patient_profile i acs d).t0 < limits.rule_out)
    (hhs : (generate_patient_profile i acs d).heart ≤ 3) :
    (waterfallStep platform true limits dest acs i d).outcome = "Rule Out (Single Sample)"
    ∧ (waterfallStep platform true limits dest acs i d).action
        = "Rapid Discharge (" ++ dest ++ ")"
    ∧ (waterfallStep platform true limits dest acs i d).beds = 0
    ∧ (waterfallStep platform true limits dest acs i d).kits = 1
    ∧ (waterfallStep platform true limits dest acs i d).wait
        = platform.turnaround + (if d.doc then 60 else 0) := by
  have hc : True ∧ (generate_patient_profile i acs d).t0 < limits.rule_out
      ∧ (generate_patient_profile i acs d).heart ≤ 3 := ⟨trivial, ht0, hhs⟩
  simp only [waterfallStep, eq_self_iff_true, if_pos hc]
  refine ⟨rfl, rfl, ?_, rfl, rfl⟩
  rw [mkRow_beds_zero]
  rcases hdest with h | h | h <;> subst h <;> decide

/-- C9: every NSTEMI patient in the waterfall runner has HEART score at least
5, t0 at least 20 and delta at least 10, so whenever the rule-out threshold is
at most 20 the patient is never single-sample discharged, fails the serial
rule-out conditions and satisfies the delta rule-in condition: outcome Rule In,
action Cath Lab. -/
theorem nstemi_rule_in_spec (platform : Platform) (useSingle : Bool)
    (limits : Limits) (dest : String) (acs : ℚ) (i : ℕ) (d : PDraws)
    (hband : d.r < acs) (hro : limits.rule_out ≤ 20) :
    5 ≤ (generate_patient_profile i acs d).heart
    ∧ 20 ≤ (generate_patient_profile i acs d).t0
    ∧ 10 ≤ (generate_patient_profile i acs d).t1 - (generate_patient_profile i acs d).t0
    ∧ (waterfallStep platform useSingle limits dest acs i d).outcome = "Rule In"
    ∧ (waterfallStep platform useSingle limits dest acs i d).action = "Cath Lab" := by
  have hgen : generate_patient_profile i acs d
      = ⟨i, "NSTEMI", randint 5 10 d.hs, randint 20 800 d.ts,
         randint 20 800 d.ts + randint 10 100 d.ds,
         randint 20 800 d.ts + randint 10 100 d.ds * 2⟩ := by
    simp only [generate_patient_profile, if_pos hband]
  have hh := randint_lower 5 10 d.hs (by norm_num)
  have ht := randint_lower 20 800 d.ts (by norm_num)
  have hd := randint_lower 10 100 d.ds (by norm_num)
  have hc1 : ¬ (useSingle = true ∧ (generate_patient_profile i acs d).t0 < limits.rule_out
      ∧ (generate_patient_profile i acs d).heart ≤ 3) := by
    rw [hgen]; dsimp only; intro hx; omega
  have hc2 : ¬ ((generate_patient_profile i acs d).t0 < limits.rule_out
      ∨ ((generate_patient_profile i acs d).t0 < 12
        ∧ (generate_patient_profile i acs d).t1 - (generate_patient_profile i acs d).t0 < 3)) := by
    rw [hgen]; dsimp only; intro hx
    rcases hx with hx | hx <;> omega
  have hc3 : limits.rule_in < (generate_patient_profile i acs d).t0
      ∨ 5 < (generate_patient_profile i acs d).t1 - (generate_patient_profile i acs d).t0 := by
    rw [hgen]; dsimp only; right; omega
  refine ⟨?_, ?_, ?_, ?_, ?_⟩
  · rw [hgen]; dsimp only; omega
  · rw [hgen]; dsimp only; omega
  · rw [hgen]; dsimp only; omega
  · simp only [waterfallStep, if_neg hc1, if_neg hc2, if_pos hc3]
    rfl
  · simp only [waterfallStep, if_neg hc1, if_neg hc2, if_pos hc3]
    rfl

/-- C3 (counterexample): in the waterfall runner an Unstable Angina patient
whose numeric outcome is Rule Out and who is rescued gets outcome Clinical
Rescue with beds = 1, but the wait is the accumulated serial-testing time
(here 240 minutes on the Central Lab), not the claimed 120 minutes. -/
theorem waterfall_rescue_wait_not_120 :
    (waterfallStep centralPlatform true ⟨5, 52⟩ "GP Surgery" 15 1
        ⟨16, 2, 3, 0, false, true⟩).outcome = "Clinical Rescue"
    ∧ (waterfallStep centralPlatform true ⟨5, 52⟩ "GP Surgery" 15 1
        ⟨16, 2, 3, 0, false, true⟩).beds = 1
    ∧ (waterfallStep centralPlatform true ⟨5, 52⟩ "GP Surgery" 15 1
        ⟨16, 2, 3, 0, false, true⟩).wait = 240
    ∧ (240 : ℕ) ≠ 120 := by
  refine ⟨?_, ?_, ?_, by decide⟩ <;>
    norm_num [waterfallStep, generate_patient_profile, randint, mkRow,
      centralPlatform, admitOrBlock, strHas, strStarts]

/-- C3 (amended): for an Unstable Angina patient with HEART score at least 4
whose numeric outcome resolves to Rule Out, a safety-net draw below 0.5 gives
Clinical Rescue with an admit action and one blocked bed, and otherwise the
dangerous discharge is kept; the ESC runner sets the rescue wait to 120,
while the waterfall runner keeps the accumulated serial wait unchanged. -/
theorem ua_safety_net_spec
    (p : Patient) (limits : Limits) (dest : String)
    (platform : Platform) (useSingle : Bool) (limits2 : Limits) (dest2 : String)
    (acs : ℚ) (i : ℕ) (d : PDraws)
    (hUA : p.condition = "Unstable Angina")
    (hout : (apply_esc_guidelines p limits true).1 = "Rule Out")
    (hheart : 4 ≤ p.heart)
    (hb1 : acs ≤ d.r) (hb2 : d.r < acs + 5) (hres : d.rescue = true) :
    escStep p limits dest true true = ("Clinical Rescue", "Admit (High Risk Story)", 120)
    ∧ escBeds (escStep p limits dest true true).2.1 = 1
    ∧ (escStep p limits dest true false).1 = "Missed UA"
    ∧ (escStep p limits dest true false).2.1 = "Discharge (" ++ dest ++ ")"
    ∧ (escStep p limits dest true false).2.2 = (apply_esc_guidelines p limits true).2.2
    ∧ (waterfallStep platform useSingle limits2 dest2 acs i d).outcome = "Clinical Rescue"
    ∧ (waterfallStep platform useSingle limits2 dest2 acs i d).action = "Admit (High Risk)"
    ∧ (waterfallStep platform useSingle limits2 dest2 acs i d).beds = 1
    ∧ (waterfallStep platform useSingle limits2 dest2 acs i d).wait
        = platform.turnaround + (if d.doc then 60 else 0) + 60 + platform.turnaround := by
  have hcond : p.condition = "Unstable Angina" ∧ (apply_esc_guidelines p limits true).1 = "Rule Out" :=
    ⟨hUA, hout⟩
  have hesc1 : escStep p limits dest true true
      = ("Clinical Rescue", "Admit (High Risk Story)", 120) := by
    simp only [escStep, if_pos hcond, eq_self_iff_true, and_true,
      if_pos (hheart : 4 ≤ p.heart)]
  have hesc2 : escStep p limits dest true false
      = ("Missed UA", "Discharge (" ++ dest ++ ")", (apply_esc_guidelines p limits true).2.2) := by
    have hno : ¬ (4 ≤ p.heart ∧ (false : Bool) = true) := fun hx => by simpa using hx.2
    simp only [escStep, if_pos hcond, if_neg hno]
  have hgen : generate_patient_profile i acs d
      = ⟨i, "Unstable Angina", randint 4 9 d.hs, randint 0 10 d.ts,
         randint 0 10 d.ts + randint 0 2 d.ds,
         randint 0 10 d.ts + randint 0 2 d.ds * 2⟩ := by
    simp only [generate_patient_profile, if_neg (not_lt.mpr hb1), if_pos hb2]
  have hh := randint_lower 4 9 d.hs (by norm_num)
  have ht := randint_upper 0 10 d.ts (by norm_num)
  have hd := randint_upper 0 2 d.ds (by norm_num)
  have hc1 : ¬ (useSingle = true ∧ (generate_patient_profile i acs d).t0 < limits2.rule_out
      ∧ (generate_patient_profile i acs d).heart ≤ 3) := by
    rw [hgen]; dsimp only; intro hx; omega
  have hc2 : (generate_patient_profile i acs d).t0 < limits2.rule_out
      ∨ ((generate_patient_profile i acs d).t0 < 12
        ∧ (generate_patient_profile i acs d).t1 - (generate_patient_profile i acs d).t0 < 3) := by
    rw [hgen]; dsimp only; right; constructor <;> omega
  have hc3 : (generate_patient_profile i acs d).condition = "Unstable Angina"
      ∧ 4 ≤ (generate_patient_profile i acs d).heart ∧ d.rescue = true := by
    rw [hgen]; exact ⟨rfl, hh, hres⟩
  refine ⟨hesc1, by rw [hesc1]; rfl, by rw [hesc2], by rw [hesc2], by rw [hesc2], ?_, ?_, ?_, ?_⟩ <;>
    simp only [waterfallStep, if_neg hc1, if_pos hc2, if_pos hc3] <;> rfl

/-- C6: when the computed daily volume is zero, run_shift returns an empty
table, all aggregate counters are zero, and finalising the costs still yields
total_cost = 0. -/
theorem run_shift_empty_spec (volume pct : ℕ) (acs : ℚ) (platform : Platform)
    (useSingle : Bool) (limits : Limits) (dest : String) (draws : ℕ → PDraws)
    (cr nr : ℚ) (h : daily_cp_volume volume pct = 0) :
    (run_shift volume pct acs platform useSingle limits dest draws).1 = []
    ∧ (run_shift volume pct acs platform useSingle limits dest draws).2.1.waiting_minutes = 0
    ∧ (run_shift volume pct acs platform useSingle limits dest draws).2.1.beds_blocked = 0
    ∧ (run_shift volume pct acs platform useSingle limits dest draws).2.1.test_count = 0
    ∧ (run_shift volume pct acs platform useSingle limits dest draws).2.1.test_kit_cost = 0
    ∧ (run_shift volume pct acs platform useSingle limits dest draws).2.1.total_cost = 0
    ∧ (run_shift volume pct acs platform useSingle limits dest draws).2.2 = 0
    ∧ (finalize (run_shift volume pct acs platform useSingle limits dest draws).2.1 cr nr).total_cost
        = 0 := by
  simp [run_shift, h, finalize]

/-- C10: the aggregate returned by run_shift is consistent with the returned
table: waiting_minutes is the sum of the Wait column, beds_blocked counts
exactly the rows whose action marks an admission or bed block (hence is at
most the row count), and test_count equals the number of rows. -/
theorem aggregate_consistency_spec (volume pct : ℕ) (acs : ℚ)
    (platform : Platform) (useSingle : Bool) (limits : Limits) (dest : String)
    (draws : ℕ → PDraws) :
    (run_shift volume pct acs platform useSingle limits dest draws).2.1.waiting_minutes
      = (((run_shift volume pct acs platform useSingle limits dest draws).1).map Row.wait).sum
    ∧ (run_shift volume pct acs platform useSingle limits dest draws).2.1.beds_blocked
      = (((run_shift volume pct acs platform useSingle limits dest draws).1).filter
          (fun row => admitOrBlock row.action)).length
    ∧ (run_shift volume pct acs platform useSingle limits dest draws).2.1.beds_blocked
      ≤ ((run_shift volume pct acs platform useSingle limits dest draws).1).length
    ∧ (run_shift volume pct acs platform useSingle limits dest draws).2.1.test_count
      = ((run_shift volume pct acs platform useSingle limits dest draws).1).length := by
  have hf : ∀ k, (waterfallStep platform useSingle limits dest acs (k + 1) (draws k)).beds
      = if admitOrBlock (waterfallStep platform useSingle limits dest acs (k + 1) (draws k)).action
        then 1 else 0 :=
    fun k => waterfallStep_beds_eq platform useSingle limits dest acs (k + 1) (draws k)
  simp only [run_shift, foldStep_spec, List.nil_append, Nat.zero_add]
  refine ⟨?_, ?_, ?_, ?_⟩
  · rw [List.map_map]
    rfl
  · exact sum_beds_eq_filter_length _ hf _
  · rw [sum_beds_eq_filter_length _ hf]
    exact List.length_filter_le _ _
  · simp

/-- Witness for single_sample_exit_spec: a concrete Non-Cardiac patient with
t0 = 3 and HEART score 2 under rule-out threshold 5. -/
theorem single_sample_exit_spec_witness :
    ("GP Surgery" = "GP Surgery" ∨ "GP Surgery" = "Virtual Ward"
      ∨ "GP Surgery" = "RACPC Clinic")
    ∧ (generate_patient_profile 1 15 ⟨90, 60, 3, 0, false, false⟩).t0 < (5 : ℤ)
    ∧ (generate_patient_profile 1 15 ⟨90, 60, 3, 0, false, false⟩).heart ≤ 3
    ∧ ((waterfallStep centralPlatform true ⟨5, 52⟩ "GP Surgery" 15 1
          ⟨90, 60, 3, 0, false, false⟩).outcome = "Rule Out (Single Sample)"
      ∧ (waterfallStep centralPlatform true ⟨5, 52⟩ "GP Surgery" 15 1
          ⟨90, 60, 3, 0, false, false⟩).action = "Rapid Discharge (" ++ "GP Surgery" ++ ")"
      ∧ (waterfallStep centralPlatform true ⟨5, 52⟩ "GP Surgery" 15 1
          ⟨90, 60, 3, 0, false, false⟩).beds = 0
      ∧ (waterfallStep centralPlatform true ⟨5, 52⟩ "GP Surgery" 15 1
          ⟨90, 60, 3, 0, false, false⟩).kits = 1
      ∧ (waterfallStep centralPlatform true ⟨5, 52⟩ "GP Surgery" 15 1
          ⟨90, 60, 3, 0, false, false⟩).wait
          = centralPlatform.turnaround + (if (false : Bool) then 60 else 0)) :=
  ⟨Or.inl rfl,
   by norm_num [generate_patient_profile, randint, weightedHeart],
   by norm_num [generate_patient_profile, randint, weightedHeart],
   single_sample_exit_spec centralPlatform ⟨5, 52⟩ "GP Surgery" 15 1
     ⟨90, 60, 3, 0, false, false⟩ (Or.inl rfl)
     (by norm_num [generate_patient_profile, randint, weightedHeart])
     (by norm_num [generate_patient_profile, randint, weightedHeart])⟩

/-- Witness for nstemi_rule_in_spec: a concrete NSTEMI draw under rule-out
threshold 5. -/
theorem nstemi_rule_in_spec_witness :
    ((⟨10, 0, 0, 0, false, false⟩ : PDraws).r < 15 ∧ (⟨5, 52⟩ : Limits).rule_out ≤ 20)
    ∧ (5 ≤ (generate_patient_profile 1 15 ⟨10, 0, 0, 0, false, false⟩).heart
      ∧ 20 ≤ (generate_patient_profile 1 15 ⟨10, 0, 0, 0, false, false⟩).t0
      ∧ 10 ≤ (generate_patient_profile 1 15 ⟨10, 0, 0, 0, false, false⟩).t1
          - (generate_patient_profile 1 15 ⟨10, 0, 0, 0, false, false⟩).t0
      ∧ (waterfallStep centralPlatform true ⟨5, 52⟩ "GP Surgery" 15 1
          ⟨10, 0, 0, 0, false, false⟩).outcome = "Rule In"
      ∧ (waterfallStep centralPlatform true ⟨5, 52⟩ "GP Surgery" 15 1
          ⟨10, 0, 0, 0, false, false⟩).action = "Cath Lab") :=
  ⟨⟨by norm_num, by norm_num⟩,
   nstemi_rule_in_spec centralPlatform true ⟨5, 52⟩ "GP Surgery" 15 1
     ⟨10, 0, 0, 0, false, false⟩ (by norm_num) (by norm_num)⟩

/-- Witness for ua_safety_net_spec: a concrete Unstable Angina patient with
HEART score 6 and t0 = 3 whose ESC outcome is Rule Out, and a concrete
Unstable Angina band draw with the rescue coin set. -/
theorem ua_safety_net_spec_witness :
    ((⟨1, "Unstable Angina", 6, 3, 3, 3⟩ : Patient).condition = "Unstable Angina"
      ∧ (apply_esc_guidelines ⟨1, "Unstable Angina", 6, 3, 3, 3⟩ ⟨5, 52⟩ true).1 = "Rule Out"
      ∧ 4 ≤ (⟨1, "Unstable Angina", 6, 3, 3, 3⟩ : Patient).heart
      ∧ (15 : ℚ) ≤ (⟨16, 2, 3, 0, false, true⟩ : PDraws).r
      ∧ (⟨16, 2, 3, 0, false, true⟩ : PDraws).r < 15 + 5
      ∧ (⟨16, 2, 3, 0, false, true⟩ : PDraws).rescue = true)
    ∧ (escStep ⟨1, "Unstable Angina", 6, 3, 3, 3⟩ ⟨5, 52⟩ "GP Surgery" true true
        = ("Clinical Rescue", "Admit (High Risk Story)", 120)
      ∧ escBeds (escStep ⟨1, "Unstable Angina", 6, 3, 3, 3⟩ ⟨5, 52⟩ "GP Surgery" true true).2.1 = 1
      ∧ (escStep ⟨1, "Unstable Angina", 6, 3, 3, 3⟩ ⟨5, 52⟩ "GP Surgery" true false).1 = "Missed UA"
      ∧ (escStep ⟨1, "Unstable Angina", 6, 3, 3, 3⟩ ⟨5, 52⟩ "GP Surgery" true false).2.1
          = "Discharge (" ++ "GP Surgery" ++ ")"
      ∧ (escStep ⟨1, "Unstable Angina", 6, 3, 3, 3⟩ ⟨5, 52⟩ "GP Surgery" true false).2.2
          = (apply_esc_guidelines ⟨1, "Unstable Angina", 6, 3, 3, 3⟩ ⟨5, 52⟩ true).2.2
      ∧ (waterfallStep centralPlatform true ⟨5, 52⟩ "GP Surgery" 15 1
          ⟨16, 2, 3, 0, false, true⟩).outcome = "Clinical Rescue"
      ∧ (waterfallStep centralPlatform true ⟨5, 52⟩ "GP Surgery" 15 1
          ⟨16, 2, 3, 0, false, true⟩).action = "Admit (High Risk)"
      ∧ (waterfallStep centralPlatform true ⟨5, 52⟩ "GP Surgery" 15 1
          ⟨16, 2, 3, 0, false, true⟩).beds = 1
      ∧ (waterfallStep centralPlatform true ⟨5, 52⟩ "GP Surgery" 15 1
          ⟨16, 2, 3, 0, false, true⟩).wait
          = centralPlatform.turnaround + (if (false : Bool) then 60 else 0) + 60
            + centralPlatform.turnaround) :=
  ⟨⟨rfl, by decide, by decide, by norm_num, by norm_num, rfl⟩,
   ua_safety_net_spec ⟨1, "Unstable Angina", 6, 3, 3, 3⟩ ⟨5, 52⟩ "GP Surgery"
     centralPlatform true ⟨5, 52⟩ "GP Surgery" 15 1 ⟨16, 2, 3, 0, false, true⟩
     rfl (by decide) (by decide) (by norm_num) (by norm_num) rfl⟩

/-- Witness for condition_band_spec at acs_prevalence 15 with draws 3, 40
and 97. -/
theorem condition_band_spec_witness :
    ((0 : ℚ) ≤ 3 ∧ (3 : ℚ) < 100 ∧ (0 : ℚ) ≤ 15 ∧ (15 : ℚ) ≤ 100 ∧ (3 : ℚ) ≤ 97)
    ∧ ((generate_patient_profile 1 15 ⟨40, 0, 0, 0, false, false⟩).condition
        = conditionOf (⟨40, 0, 0, 0, false, false⟩ : PDraws).r 15
      ∧ (conditionOf 3 15 = "NSTEMI" ↔ (3 : ℚ) < 15)
      ∧ (conditionOf 3 15 = "Unstable Angina" ↔ (15 : ℚ) ≤ 3 ∧ (3 : ℚ) < 15 + 5)
      ∧ (conditionOf 3 15 = "Chronic Injury" ↔ (15 : ℚ) + 5 ≤ 3 ∧ (3 : ℚ) < 15 + 15)
      ∧ (conditionOf 3 15 = "Non-Cardiac" ↔ (15 : ℚ) + 15 ≤ 3)
      ∧ bandIdx 3 15 ≤ bandIdx 97 15
      ∧ (15 : ℚ) + 5 - 15 = 5
      ∧ (15 : ℚ) + 15 - (15 + 5) = 10) :=
  ⟨⟨by norm_num, by norm_num, by norm_num, by norm_num, by norm_num⟩,
   condition_band_spec 1 15 ⟨40, 0, 0, 0, false, false⟩ 3 97
     (by norm_num) (by norm_num) (by norm_num) (by norm_num) (by norm_num)⟩

/-- Witness for run_shift_empty_spec: zero chest-pain percentage yields a
patient count of zero and an all-zero result. -/
theorem run_shift_empty_spec_witness :
    daily_cp_volume 250 0 = 0
    ∧ ((run_shift 250 0 15 centralPlatform true ⟨5, 52⟩ "GP Surgery"
          (fun _ => ⟨0, 0, 0, 0, false, false⟩)).1 = []
      ∧ (run_shift 250 0 15 centralPlatform true ⟨5, 52⟩ "GP Surgery"
          (fun _ => ⟨0, 0, 0, 0, false, false⟩)).2.1.waiting_minutes = 0
      ∧ (run_shift 250 0 15 centralPlatform true ⟨5, 52⟩ "GP Surgery"
          (fun _ => ⟨0, 0, 0, 0, false, false⟩)).2.1.beds_blocked = 0
      ∧ (run_shift 250 0 15 centralPlatform true ⟨5, 52⟩ "GP Surgery"
          (fun _ => ⟨0, 0, 0, 0, false, false⟩)).2.1.test_count = 0
      ∧ (run_shift 250 0 15 centralPlatform true ⟨5, 52⟩ "GP Surgery"
          (fun _ => ⟨0, 0, 0, 0, false, false⟩)).2.1.test_kit_cost = 0
      ∧ (run_shift 250 0 15 centralPlatform true ⟨5, 52⟩ "GP Surgery"
          (fun _ => ⟨0, 0, 0, 0, false, false⟩)).2.1.total_cost = 0
      ∧ (run_shift 250 0 15 centralPlatform true ⟨5, 52⟩ "GP Surgery"
          (fun _ => ⟨0, 0, 0, 0, false, false⟩)).2.2 = 0
      ∧ (finalize (run_shift 250 0 15 centralPlatform true ⟨5, 52⟩ "GP Surgery"
          (fun _ => ⟨0, 0, 0, 0, false, false⟩)).2.1 135 30).total_cost = 0) :=
  ⟨by decide,
   run_shift_empty_spec 250 0 15 centralPlatform true ⟨5, 52⟩ "GP Surgery"
     (fun _ => ⟨0, 0, 0, 0, false, false⟩) 135 30 (by decide)⟩
